import Mathlib

/-!
Verification of the v1.0.0 query translator and hasher of
ckanext-versioned-datastore (file ckanext/versioned_datastore/lib/query/v1_0_0.py).

The Python code is shallowly embedded: JSON scalar values are modelled by `Prim`
(strings and integers), a query document filter tree by `GroupOrTerm`, the
elasticsearch-dsl query objects produced by the translator by `QueryNode`, and the
canonical strings produced by the hasher by plain `String`s.  The GeoRegion lookup
built by `load_geojson` is a `defaultdict`, so reading a missing name inserts an
empty entry; the translator is therefore modelled as a state-passing function that
returns the (possibly updated) lookup alongside its result, and errors are modelled
with `Except` while still reporting the final state.  SHA-1 is implemented over
byte lists; Python 2 `hashlib.update` on ASCII unicode text consumes the ASCII
bytes, which for the ASCII inputs used here coincide with the code points.
-/

/-- A JSON scalar as used by query options: a string or an integer number.
Python renders these with `str`, modelled by `primStr`. -/
inductive Prim where
  | s (v : String)
  | n (v : Int)
deriving DecidableEq, Repr

/-- Python `str` formatting of a scalar: strings print verbatim, integers in
decimal with a leading minus sign when negative. -/
def primStr : Prim → String
  | .s v => v
  | .n v => toString v

/-- A GeoJSON position, in GeoJSON order: (longitude, latitude). -/
abbrev GeoPoint := Prim × Prim

/-- A linear ring: an ordered list of positions. -/
abbrev LinRing := List GeoPoint

/-- A GeoJSON polygon, destructured the way the source does with
`outer, holes = polygon[0], polygon[1:]`: the outer ring plus the hole rings. -/
abbrev PolygonT := LinRing × List LinRing

/-- A GeoJSON MultiPolygon coordinates array: a list of polygons. -/
abbrev MultiPolygon := List PolygonT

/-- Modelled from the spec: `prefix_field` is imported from
`ckanext.versioned_datastore.lib.datastore_utils`, which is not part of the
sources in scope.  Per the spec, every logical field name is prefixed with a
fixed namespace token before being placed in the output query tree; the spec
end-to-end example shows `Term("data.genus", "Rosa")`, so the token is `data.`. -/
def prefixField (field : String) : String := "data." ++ field

/-- One node of a filter tree: a single-key mapping from an operator name to
operator-specific options.  The operator name is kept as a free-form string so
that dispatch on unknown names can be modelled; the constructor records the
shape of the options payload (a member list for groups, an options dict for
leaves, a coordinates array, or a nested single-key dict). -/
inductive GroupOrTerm where
  | node (op : String) (members : List GroupOrTerm)
  | fv (op : String) (fields : List String) (value : Prim)
  | rangeOpts (op : String) (fields : List String)
      (less_than greater_than : Option Prim) (ltIncl gtIncl : Option Bool)
  | existsOpts (op : String) (fields : List String) (geo_field : Option Bool)
  | geoPointOpts (op : String) (latitude longitude : Prim)
      (radius : Option Prim) (radius_unit : Option String)
  | namedArea (op : String) (category name : String)
  | coordsTerm (op : String) (c : MultiPolygon)
  | nested (op : String) (inner : GroupOrTerm)

/-- The operator name of a node, i.e. the single key of the dict. -/
def GroupOrTerm.op : GroupOrTerm → String
  | .node o _ => o
  | .fv o _ _ => o
  | .rangeOpts o _ _ _ _ _ => o
  | .existsOpts o _ _ => o
  | .geoPointOpts o _ _ _ _ => o
  | .namedArea o _ _ => o
  | .coordsTerm o _ => o
  | .nested o _ => o

/-- An elasticsearch-dsl query object as built by the translator. -/
inductive QueryNode where
  | term (field : String) (value : Prim)
  | matchQ (field : String) (query : Prim) (operator : String)
  | rangeQ (field : String) (lt lte gt gte : Option Prim)
  | existsQ (field : String)
  | geoDistance (distance : String) (lat lon : Prim)
  | geoPolygon (points : List (Prim × Prim))
  | bool (filter should must_not : List QueryNode)
      (minimum_should_match : Option Nat)

/-- Errors raised by the Python code: `KeyError` from a plain dict lookup,
`AttributeError` from `getattr(self, "create_" + op)` when no such method
exists, and a payload type error when a handler receives options of a shape it
cannot process. -/
inductive Err where
  | keyError (k : String)
  | attributeError (name : String)
  | typeError (op : String)
  | stopIteration
deriving DecidableEq, Repr

/-- The operator names `op` for which a method named `create_<op>` exists on
both `v1_0_0Schema` and `v1_0_0Hasher`.  Besides the eleven query operators this
includes `group_or_term` itself: `getattr` resolves `create_group_or_term`,
the dispatcher, like any other handler. -/
def knownMethods : List String :=
  ["group_or_term", "and", "or", "not", "string_equals", "string_contains",
   "number_equals", "number_range", "exists", "geo_point", "geo_named_area",
   "geo_custom_area"]

/-- Outcome of dispatching an operator name whose payload did not match any
handler branch: an `AttributeError` when no `create_<op>` method exists at all,
otherwise a payload type error from the handler. -/
def dispatchFail (op : String) : Err :=
  if op ∈ knownMethods then .typeError op else .attributeError op

instance : DecidableEq PolygonT := inferInstance

instance : DecidableEq MultiPolygon := inferInstance

/-- A per-category region table: display name to MultiPolygon coordinates.
In the source this is the `defaultdict(list)` returned by `load_geojson`. -/
abbrev RegionTable := List (String × MultiPolygon)

instance : DecidableEq RegionTable := inferInstance

/-- The `self.geojson` mapping built in `v1_0_0Schema.__init__`: a plain dict
with exactly the keys `country`, `marine` and `geography`. -/
structure Geojson where
  country : RegionTable
  marine : RegionTable
  geography : RegionTable
deriving DecidableEq, Repr

/-- Reading `self.geojson[category]`: `none` models the `KeyError` raised for a
category other than the three fixed keys. -/
def geojsonGet (g : Geojson) (category : String) : Option RegionTable :=
  if category = "country" then some g.country
  else if category = "marine" then some g.marine
  else if category = "geography" then some g.geography
  else none

/-- Writing back a category table (the in-place mutation of the Python dict). -/
def geojsonSet (g : Geojson) (category : String) (t : RegionTable) : Geojson :=
  if category = "country" then { g with country := t }
  else if category = "marine" then { g with marine := t }
  else if category = "geography" then { g with geography := t }
  else g

/-- `defaultdict(list)` item access: a present key returns its value and leaves
the table unchanged; a missing key inserts an empty entry and returns it. -/
def ddGet (t : RegionTable) (k : String) : MultiPolygon × RegionTable :=
  match t.lookup k with
  | some v => (v, t)
  | none => ([], t ++ [(k, [])])

/-- A v1.0.0 query document: the `search` and `filters` keys the code reads,
plus whatever other top-level keys the dict may carry (never inspected). -/
structure QueryDoc where
  search : Option String := none
  filters : Option GroupOrTerm := none
  extra : List (String × Prim) := []

namespace v1_0_0Schema

/-- `v1_0_0Schema.build_or`: a single term is returned on its own, any other
number of terms is wrapped in a `Bool` should with `minimum_should_match=1`. -/
def build_or (terms : List QueryNode) : QueryNode :=
  match terms with
  | [t] => t
  | ts => .bool [] ts [] (some 1)

/-- `v1_0_0Schema.build_geo_polygon_query`: points arrive in GeoJSON order
(longitude, latitude) and are emitted as lat/lon dicts. -/
def build_geo_polygon_query (points : LinRing) : QueryNode :=
  .geoPolygon (points.map (fun point => (point.2, point.1)))

/-- `v1_0_0Schema.build_multipolygon_query`: one query per polygon, a bare
outer-ring query when there are no holes, otherwise a `Bool` filtering on the
outer ring and excluding the holes; polygon queries are or-combined. -/
def build_multipolygon_query (coordinates : MultiPolygon) : QueryNode :=
  build_or (coordinates.map (fun polygon =>
    let outer_query := build_geo_polygon_query polygon.1
    match polygon.2 with
    | [] => outer_query
    | holes => .bool [outer_query] [] (holes.map build_geo_polygon_query) none))

/-- `v1_0_0Schema.create_string_equals`: one term query per field, or-combined. -/
def create_string_equals (fields : List String) (value : Prim) : QueryNode :=
  build_or (fields.map (fun field => .term (prefixField field) value))

/-- `v1_0_0Schema.create_string_contains`: match queries on the `.full`
subfield when fields are given, otherwise a single match on `meta.all`. -/
def create_string_contains (fields : List String) (value : Prim) : QueryNode :=
  match fields with
  | [] => .matchQ "meta.all" value "and"
  | fs => build_or (fs.map (fun field =>
      .matchQ (prefixField field ++ ".full") value "and"))

/-- `v1_0_0Schema.create_number_equals`: term queries on the `.number`
subfield, or-combined. -/
def create_number_equals (fields : List String) (value : Prim) : QueryNode :=
  build_or (fields.map (fun field =>
    .term (prefixField field ++ ".number") value))

/-- `v1_0_0Schema.create_number_range`: a range query per field on the
`.number` subfield; the upper bound is keyed `lt` or `lte` depending on
`less_than_inclusive` (default true) and only present when `less_than` is,
and symmetrically for the lower bound. -/
def create_number_range (fields : List String)
    (less_than greater_than : Option Prim) (ltIncl gtIncl : Option Bool) :
    QueryNode :=
  let less_than_inclusive := ltIncl.getD true
  let greater_than_inclusive := gtIncl.getD true
  let ltPair : Option Prim × Option Prim :=
    match less_than with
    | none => (none, none)
    | some v => if less_than_inclusive then (none, some v) else (some v, none)
  let gtPair : Option Prim × Option Prim :=
    match greater_than with
    | none => (none, none)
    | some v => if greater_than_inclusive then (none, some v) else (some v, none)
  build_or (fields.map (fun field =>
    .rangeQ (prefixField field ++ ".number") ltPair.1 ltPair.2 gtPair.1 gtPair.2))

/-- `v1_0_0Schema.create_exists`: a single query on `meta.geo` when
`geo_field` is truthy, otherwise exists queries per field, or-combined. -/
def create_exists (fields : List String) (geo_field : Option Bool) : QueryNode :=
  if geo_field.getD false then .existsQ "meta.geo"
  else build_or (fields.map (fun field => .existsQ (prefixField field)))

/-- `v1_0_0Schema.create_geo_point`: a geo-distance query; the distance string
concatenates `radius` (default `0`) and `radius_unit` (default `m`). -/
def create_geo_point (latitude longitude : Prim)
    (radius : Option Prim) (radius_unit : Option String) : QueryNode :=
  .geoDistance (primStr (radius.getD (.n 0)) ++ radius_unit.getD "m")
    latitude longitude

/-- `v1_0_0Schema.create_geo_custom_area`: delegates to the MultiPolygon
builder. -/
def create_geo_custom_area (coordinates : MultiPolygon) : QueryNode :=
  build_multipolygon_query coordinates

/-- `v1_0_0Schema.create_geo_named_area`: reads `self.geojson[category][name]`.
The outer access is a plain dict lookup (`KeyError` on a category other than
country, marine, geography); the inner access is on a `defaultdict(list)`, so a
missing name yields an empty MultiPolygon and inserts an empty entry into the
table, which is why the updated lookup is returned alongside the result. -/
def create_geo_named_area (geo : Geojson) (category name : String) :
    Except Err QueryNode × Geojson :=
  match geojsonGet geo category with
  | none => (.error (.keyError category), geo)
  | some tbl =>
    let r := ddGet tbl name
    (.ok (build_multipolygon_query r.1), geojsonSet geo category r.2)

mutual

/-- `v1_0_0Schema.create_group_or_term`: extracts the single key of the dict
and dispatches to `create_<key>` via `getattr`.  A name with no such method is
an `AttributeError`; a name whose handler cannot consume the payload shape is a
type error; the name `group_or_term` resolves to the dispatcher itself.  The
lookup travels through every call because `create_geo_named_area` can mutate
it. -/
def create_group_or_term (geo : Geojson) :
    GroupOrTerm → Except Err QueryNode × Geojson
  | .node op members =>
    if op = "and" then
      match translate_members geo members with
      | (.error e, geo1) => (.error e, geo1)
      | (.ok ms, geo1) =>
        (.ok (match ms with
              | [m] => m
              | ms' => .bool ms' [] [] none), geo1)
    else if op = "or" then
      match translate_members geo members with
      | (.error e, geo1) => (.error e, geo1)
      | (.ok ms, geo1) => (.ok (build_or ms), geo1)
    else if op = "not" then
      match translate_members geo members with
      | (.error e, geo1) => (.error e, geo1)
      | (.ok ms, geo1) => (.ok (.bool [] [] ms none), geo1)
    else (.error (dispatchFail op), geo)
  | .fv op fields value =>
    if op = "string_equals" then (.ok (create_string_equals fields value), geo)
    else if op = "string_contains" then
      (.ok (create_string_contains fields value), geo)
    else if op = "number_equals" then
      (.ok (create_number_equals fields value), geo)
    else (.error (dispatchFail op), geo)
  | .rangeOpts op fields lt gt ltIncl gtIncl =>
    if op = "number_range" then
      (.ok (create_number_range fields lt gt ltIncl gtIncl), geo)
    else (.error (dispatchFail op), geo)
  | .existsOpts op fields geo_field =>
    if op = "exists" then (.ok (create_exists fields geo_field), geo)
    else (.error (dispatchFail op), geo)
  | .geoPointOpts op latitude longitude radius radius_unit =>
    if op = "geo_point" then
      (.ok (create_geo_point latitude longitude radius radius_unit), geo)
    else (.error (dispatchFail op), geo)
  | .namedArea op category name =>
    if op = "geo_named_area" then create_geo_named_area geo category name
    else (.error (dispatchFail op), geo)
  | .coordsTerm op coordinates =>
    if op = "geo_custom_area" then
      (.ok (create_geo_custom_area coordinates), geo)
    else (.error (dispatchFail op), geo)
  | .nested op inner =>
    if op = "group_or_term" then create_group_or_term geo inner
    else (.error (dispatchFail op), geo)

/-- The list comprehension `[self.create_group_or_term(member) for member in
group]`: members are translated left to right, the first exception aborts the
comprehension, and the lookup state persists across it. -/
def translate_members (geo : Geojson) :
    List GroupOrTerm → Except Err (List QueryNode) × Geojson
  | [] => (.ok [], geo)
  | t :: ts =>
    match create_group_or_term geo t with
    | (.error e, geo1) => (.error e, geo1)
    | (.ok q, geo1) =>
      match translate_members geo1 ts with
      | (.error e, geo2) => (.error e, geo2)
      | (.ok qs, geo2) => (.ok (q :: qs), geo2)

end

/-- `v1_0_0Schema.create_and`: the single member of a one-member group is
returned on its own, otherwise a `Bool` filter over the members.  Its body is
also inlined in the `and` branch of the dispatcher (to which it is
definitionally equal), so that the mutual recursion stays structural. -/
def create_and (geo : Geojson) (group : List GroupOrTerm) :
    Except Err QueryNode × Geojson :=
  match translate_members geo group with
  | (.error e, geo1) => (.error e, geo1)
  | (.ok members, geo1) =>
    (.ok (match members with
          | [m] => m
          | ms => .bool ms [] [] none), geo1)

/-- `v1_0_0Schema.create_or`: members are or-combined with `build_or`.
Inlined in the dispatcher like `create_and`. -/
def create_or (geo : Geojson) (group : List GroupOrTerm) :
    Except Err QueryNode × Geojson :=
  match translate_members geo group with
  | (.error e, geo1) => (.error e, geo1)
  | (.ok members, geo1) => (.ok (build_or members), geo1)

/-- `v1_0_0Schema.create_not`: a `Bool` with the members under `must_not`.
Inlined in the dispatcher like `create_and`. -/
def create_not (geo : Geojson) (group : List GroupOrTerm) :
    Except Err QueryNode × Geojson :=
  match translate_members geo group with
  | (.error e, geo1) => (.error e, geo1)
  | (.ok members, geo1) => (.ok (.bool [] [] members none), geo1)

/-- `v1_0_0Schema.add_search`: a match query on `meta.all` with operator `and`
when the document has a `search` key. -/
def add_search (doc : QueryDoc) (search : List QueryNode) : List QueryNode :=
  match doc.search with
  | some text => search ++ [.matchQ "meta.all" (.s text) "and"]
  | none => search

/-- `v1_0_0Schema.add_filters`: translates the `filters` tree, when present,
and appends it to the search object. -/
def add_filters (geo : Geojson) (doc : QueryDoc) (search : List QueryNode) :
    Except Err (List QueryNode) × Geojson :=
  match doc.filters with
  | none => (.ok search, geo)
  | some f =>
    match create_group_or_term geo f with
    | (.error e, geo1) => (.error e, geo1)
    | (.ok q, geo1) => (.ok (search ++ [q]), geo1)

/-- `v1_0_0Schema.translate`: a fresh search object, then `add_search`, then
`add_filters`.  The search object is modelled as the list of queries added to
it. -/
def translate (geo : Geojson) (doc : QueryDoc) :
    Except Err (List QueryNode) × Geojson :=
  add_filters geo doc (add_search doc [])

end v1_0_0Schema

/-! ### SHA-1

An executable SHA-1 over byte lists, modelling `hashlib.sha1`.  All words are
`Nat`s reduced modulo `2 ^ 32`. -/

/-- Rotate a 32-bit word left by `n` bits. -/
def rotl (n x : Nat) : Nat :=
  ((x <<< n) ||| (x >>> (32 - n))) % 4294967296

/-- The SHA-1 round function for round `i`. -/
def sha1F (i b c d : Nat) : Nat :=
  if i < 20 then (b &&& c) ||| ((b ^^^ 4294967295) &&& d)
  else if i < 40 then b ^^^ c ^^^ d
  else if i < 60 then (b &&& c) ||| (b &&& d) ||| (c &&& d)
  else b ^^^ c ^^^ d

/-- The SHA-1 round constant for round `i`. -/
def sha1K (i : Nat) : Nat :=
  if i < 20 then 1518500249
  else if i < 40 then 1859775393
  else if i < 60 then 2400959708
  else 3395469782

/-- Big-endian packing of a list of bytes into 32-bit words. -/
def wordsOfBytes : List Nat → List Nat
  | b0 :: b1 :: b2 :: b3 :: rest =>
    (((b0 * 256 + b1) * 256 + b2) * 256 + b3) :: wordsOfBytes rest
  | _ => []

/-- Extends the 16-word schedule by `count` further words. -/
def sha1Schedule (w : List Nat) : Nat → List Nat
  | 0 => w
  | count + 1 =>
    let i := w.length
    let next := rotl 1
      (w.getD (i - 3) 0 ^^^ w.getD (i - 8) 0 ^^^ w.getD (i - 14) 0 ^^^
        w.getD (i - 16) 0)
    sha1Schedule (w ++ [next]) count

/-- The 80 compression rounds; the second argument is the round index. -/
def sha1Rounds : List Nat → Nat → Nat × Nat × Nat × Nat × Nat →
    Nat × Nat × Nat × Nat × Nat
  | [], _, st => st
  | wi :: ws, i, (a, b, c, d, e) =>
    let t := (rotl 5 a + sha1F i b c d + e + sha1K i + wi) % 4294967296
    sha1Rounds ws (i + 1) (t, a, rotl 30 b, c, d)

/-- Processes one 64-byte block into the running state. -/
def sha1Block (h : Nat × Nat × Nat × Nat × Nat) (block : List Nat) :
    Nat × Nat × Nat × Nat × Nat :=
  let w := sha1Schedule (wordsOfBytes block) 64
  match h, sha1Rounds w 0 h with
  | (h0, h1, h2, h3, h4), (a, b, c, d, e) =>
    ((h0 + a) % 4294967296, (h1 + b) % 4294967296, (h2 + c) % 4294967296,
     (h3 + d) % 4294967296, (h4 + e) % 4294967296)

/-- Big-endian encoding of `n` as 8 bytes. -/
def be8 (n : Nat) : List Nat :=
  (List.range 8).map (fun i => (n >>> (8 * (7 - i))) % 256)

/-- SHA-1 message padding: a `0x80` byte, zeros to 56 mod 64, then the
big-endian 64-bit bit length. -/
def sha1Pad (msg : List Nat) : List Nat :=
  let padZeros := (119 - msg.length % 64) % 64
  msg ++ 128 :: List.replicate padZeros 0 ++ be8 (msg.length * 8)

/-- Splits a byte list into 64-byte blocks; the first argument is fuel, which
`chunks64` supplies as the list length. -/
def chunksAux : Nat → List Nat → List (List Nat)
  | 0, _ => []
  | _, [] => []
  | fuel + 1, x :: xs => ((x :: xs).take 64) :: chunksAux fuel ((x :: xs).drop 64)

/-- Splits a byte list into 64-byte blocks. -/
def chunks64 (l : List Nat) : List (List Nat) := chunksAux l.length l

/-- A lowercase hexadecimal digit. -/
def hexDigit (n : Nat) : Char :=
  Char.ofNat (if n < 10 then 48 + n else 87 + n)

/-- A 32-bit word as 8 lowercase hexadecimal characters. -/
def hex8 (n : Nat) : List Char :=
  (List.range 8).map (fun i => hexDigit ((n >>> (4 * (7 - i))) % 16))

/-- The SHA-1 hex digest of a byte list: 40 lowercase hexadecimal characters. -/
def sha1Hex (msg : List Nat) : String :=
  let st := (chunks64 (sha1Pad msg)).foldl sha1Block
    (1732584193, 4023233417, 2562383102, 271733878, 3285377520)
  match st with
  | (h0, h1, h2, h3, h4) =>
    String.mk (hex8 h0 ++ hex8 h1 ++ hex8 h2 ++ hex8 h3 ++ hex8 h4)

/-- The bytes `hashlib.update` consumes for an ASCII unicode string under
Python 2: the ASCII encoding, which equals the code points. -/
def asciiBytes (s : String) : List Nat := s.data.map Char.toNat

/-- Lexicographic code-point comparison of character lists, the order Python 2
uses to compare unicode strings. -/
def charsLe : List Char → List Char → Bool
  | [], _ => true
  | _ :: _, [] => false
  | a :: as, b :: bs =>
    if a < b then true else if b < a then false else charsLe as bs

/-- Python string comparison `a <= b`. -/
def pyLe (a b : String) : Bool := charsLe a.data b.data

/-- The comparison relation used by `sorted` on strings. -/
def pyRel (a b : String) : Prop := pyLe a b = true

instance : DecidableRel pyRel := fun a b => by unfold pyRel; infer_instance

/-- Python `sorted` on strings: the ascending reordering under lexicographic
code-point comparison.  Insertion sort is used because its result is provably
the sorted permutation, which is all `sorted` guarantees that the code relies
on (equal strings are indistinguishable, so stability is irrelevant). -/
def pySorted (l : List String) : List String :=
  List.insertionSort pyRel l

/-- An apostrophe, written by code point to keep source text plain. -/
def apos : String := String.singleton (Char.ofNat 39)

/-- Python 2 `str` of a list of unicode strings, as produced by
`u"{}".format(some_list)`: elements are shown as `u`-prefixed quoted literals,
separated by a comma and a space, inside square brackets.  None of the strings
formatted here contain characters that `repr` would escape. -/
def pyReprList (xs : List String) : String :=
  "[" ++ String.intercalate ", " (xs.map (fun x => "u" ++ apos ++ x ++ apos)) ++ "]"

namespace v1_0_0Hasher

/-- The sorted, comma-joined field list shared by every leaf hasher. -/
def joinedFields (fields : List String) : String :=
  String.intercalate "," (pySorted fields)

/-- `v1_0_0Hasher.create_string_equals`. -/
def create_string_equals (fields : List String) (value : Prim) : String :=
  "string_equals:" ++ joinedFields fields ++ ";" ++ primStr value

/-- `v1_0_0Hasher.create_string_contains`. -/
def create_string_contains (fields : List String) (value : Prim) : String :=
  "string_contains:" ++ joinedFields fields ++ ";" ++ primStr value

/-- `v1_0_0Hasher.create_number_equals`. -/
def create_number_equals (fields : List String) (value : Prim) : String :=
  "number_equals:" ++ joinedFields fields ++ ";" ++ primStr value

/-- `v1_0_0Hasher.create_number_range`: the bound markers `<` and `>` gain a
trailing `=` when the respective bound is inclusive (the default), and each
bound is appended only when present. -/
def create_number_range (fields : List String)
    (less_than greater_than : Option Prim) (ltIncl gtIncl : Option Bool) :
    String :=
  let base := "number_range:" ++ joinedFields fields ++ ";"
  let withLt := match less_than with
    | none => base
    | some v => base ++ "<" ++ (if ltIncl.getD true then "=" else "") ++ primStr v
  match greater_than with
  | none => withLt
  | some v => withLt ++ ">" ++ (if gtIncl.getD true then "=" else "") ++ primStr v

/-- `v1_0_0Hasher.create_exists`. -/
def create_exists (fields : List String) (geo_field : Option Bool) : String :=
  if geo_field.getD false then "geo_exists"
  else "exists:" ++ joinedFields fields

/-- `v1_0_0Hasher.create_geo_point`. -/
def create_geo_point (latitude longitude : Prim)
    (radius : Option Prim) (radius_unit : Option String) : String :=
  "geo_point:" ++ primStr (radius.getD (.n 0)) ++ radius_unit.getD "m" ++
    ";" ++ primStr latitude ++ ";" ++ primStr longitude

/-- `v1_0_0Hasher.create_geo_named_area`. -/
def create_geo_named_area (category name : String) : String :=
  "geo_named_area:" ++ category ++ ";" ++ name

/-- `v1_0_0Hasher.build_geo_polygon_query`: each point is written as
`[lat,lon]` (the reverse of the GeoJSON pair order) and points are joined with
commas, preserving their order. -/
def build_geo_polygon_query (points : LinRing) : String :=
  String.intercalate ","
    (points.map (fun point => "[" ++ primStr point.2 ++ "," ++ primStr point.1 ++ "]"))

/-- `v1_0_0Hasher.create_geo_custom_area`: per polygon the outer-ring string,
then, when holes exist, a slash and the Python list rendering of the sorted
hole strings; polygon strings are joined with semicolons. -/
def create_geo_custom_area (coordinates : MultiPolygon) : String :=
  "geo_custom_area:" ++ String.intercalate ";"
    (coordinates.map (fun polygon =>
      let outer_query := build_geo_polygon_query polygon.1
      match polygon.2 with
      | [] => outer_query
      | holes =>
        outer_query ++ "/" ++
          pyReprList (pySorted (holes.map build_geo_polygon_query))))

mutual

/-- `v1_0_0Hasher.create_group_or_term`: the same `getattr` dispatch as the
translator, resolving `create_<op>` on the hasher; the name `group_or_term`
again resolves to the dispatcher itself. -/
def create_group_or_term : GroupOrTerm → Except Err String
  | .node op members =>
    if op = "and" then
      match hash_members members with
      | .error e => .error e
      | .ok ms => .ok ("and:[" ++ String.intercalate "|" (pySorted ms) ++ "]")
    else if op = "or" then
      match hash_members members with
      | .error e => .error e
      | .ok ms => .ok ("or:[" ++ String.intercalate "|" (pySorted ms) ++ "]")
    else if op = "not" then
      match hash_members members with
      | .error e => .error e
      | .ok ms => .ok ("not:[" ++ String.intercalate "|" (pySorted ms) ++ "]")
    else .error (dispatchFail op)
  | .fv op fields value =>
    if op = "string_equals" then .ok (create_string_equals fields value)
    else if op = "string_contains" then .ok (create_string_contains fields value)
    else if op = "number_equals" then .ok (create_number_equals fields value)
    else .error (dispatchFail op)
  | .rangeOpts op fields lt gt ltIncl gtIncl =>
    if op = "number_range" then .ok (create_number_range fields lt gt ltIncl gtIncl)
    else .error (dispatchFail op)
  | .existsOpts op fields geo_field =>
    if op = "exists" then .ok (create_exists fields geo_field)
    else .error (dispatchFail op)
  | .geoPointOpts op latitude longitude radius radius_unit =>
    if op = "geo_point" then
      .ok (create_geo_point latitude longitude radius radius_unit)
    else .error (dispatchFail op)
  | .namedArea op category name =>
    if op = "geo_named_area" then .ok (create_geo_named_area category name)
    else .error (dispatchFail op)
  | .coordsTerm op coordinates =>
    if op = "geo_custom_area" then .ok (create_geo_custom_area coordinates)
    else .error (dispatchFail op)
  | .nested op inner =>
    if op = "group_or_term" then create_group_or_term inner
    else .error (dispatchFail op)

/-- The generator `(self.create_group_or_term(member) for member in group)` as
consumed whole by `sorted`: members are hashed left to right, the first
exception propagates. -/
def hash_members : List GroupOrTerm → Except Err (List String)
  | [] => .ok []
  | t :: ts =>
    match create_group_or_term t with
    | .error e => .error e
    | .ok s =>
      match hash_members ts with
      | .error e => .error e
      | .ok ss => .ok (s :: ss)

end

/-- `v1_0_0Hasher.create_and`: member strings are sorted, then pipe-joined.
Its body is also inlined in the `and` branch of the dispatcher (to which it is
definitionally equal), so that the mutual recursion stays structural. -/
def create_and (group : List GroupOrTerm) : Except Err String :=
  match hash_members group with
  | .error e => .error e
  | .ok members =>
    .ok ("and:[" ++ String.intercalate "|" (pySorted members) ++ "]")

/-- `v1_0_0Hasher.create_or`: member strings are sorted, then pipe-joined.
Inlined in the dispatcher like `create_and`. -/
def create_or (group : List GroupOrTerm) : Except Err String :=
  match hash_members group with
  | .error e => .error e
  | .ok members =>
    .ok ("or:[" ++ String.intercalate "|" (pySorted members) ++ "]")

/-- `v1_0_0Hasher.create_not`: member strings are sorted, then pipe-joined.
Inlined in the dispatcher like `create_and`. -/
def create_not (group : List GroupOrTerm) : Except Err String :=
  match hash_members group with
  | .error e => .error e
  | .ok members =>
    .ok ("not:[" ++ String.intercalate "|" (pySorted members) ++ "]")

/-- `v1_0_0Hasher.hash_query`: feeds `search:<text>` (when the `search` key is
present) and then `filters:<canonical string>` (when the `filters` key is
present) into one SHA-1 digest and returns the hex digest.  No other key of the
document is read. -/
def hash_query (doc : QueryDoc) : Except Err String :=
  let searchPart := match doc.search with
    | some text => "search:" ++ text
    | none => ""
  match doc.filters with
  | none => .ok (sha1Hex (asciiBytes searchPart))
  | some f =>
    match create_group_or_term f with
    | .error e => .error e
    | .ok fs => .ok (sha1Hex (asciiBytes (searchPart ++ ("filters:" ++ fs))))

end v1_0_0Hasher

/-! ### The GeoRegion loader (`v1_0_0Schema.load_geojson`)

The file reading and JSON parsing are I/O done once at startup; the merge
logic below starts from the parsed `features` list, which is where every
property of interest lives. -/

/-- Splits a character list into whitespace-separated words, like Python
`str.split()` with no argument (runs of whitespace collapse, no empty words).
The second argument accumulates the current word in reverse. -/
def pyWordsAux : List Char → List Char → List (List Char)
  | [], [] => []
  | [], acc => [acc.reverse]
  | c :: cs, acc =>
    if c.isWhitespace then
      match acc with
      | [] => pyWordsAux cs []
      | _ => acc.reverse :: pyWordsAux cs []
    else pyWordsAux cs (c :: acc)

/-- Python `str.capitalize`: first character uppercased, the rest lowercased. -/
def pyCapitalize (s : String) : String :=
  match s.data with
  | [] => ""
  | c :: cs => String.mk (c.toUpper :: cs.map Char.toLower)

/-- `string.capwords`: split on whitespace, capitalize each word, join with
single spaces. -/
def capwords (s : String) : String :=
  String.intercalate " " ((pyWordsAux s.data []).map String.mk |>.map pyCapitalize)

/-- A feature geometry: the code only handles `Polygon` (wrapped into a
one-polygon MultiPolygon) and `MultiPolygon` types. -/
inductive Geometry where
  | polygon (p : PolygonT)
  | multiPolygon (mp : MultiPolygon)

/-- A parsed GeoJSON feature: its properties dict (string values) and its
geometry. -/
structure Feature where
  properties : List (String × String)
  geometry : Geometry

/-- `next(iter(filter(None, (properties.get(key) for key in name_keys))))`:
the first key, in priority order, whose value is present and non-empty
(`filter(None, ...)` drops falsy values); `none` models the `StopIteration`
raised when no key matches. -/
def resolveName (name_keys : List String) (props : List (String × String)) :
    Option String :=
  ((name_keys.filterMap (fun key => props.lookup key)).filter
    (fun v => v ≠ "")).head?

/-- Replaces the value stored under an existing key. -/
def setEntry (t : RegionTable) (k : String) (v : MultiPolygon) : RegionTable :=
  t.map (fun kv => if kv.1 = k then (k, v) else kv)

/-- The loop body `if polygon not in lookup[name]: lookup[name].append(polygon)`
on the `defaultdict(list)`: the membership test is on the whole polygon (its
full list of rings); a missing name compares against the freshly created empty
entry and therefore appends. -/
def addPolygon (lookup : RegionTable) (name : String) (polygon : PolygonT) :
    RegionTable :=
  match lookup.lookup name with
  | some ps => if polygon ∈ ps then lookup else setEntry lookup name (ps ++ [polygon])
  | none => lookup ++ [(name, [polygon])]

/-- The per-feature merge over the parsed feature list: resolve the display
name, normalize a `Polygon` geometry into a one-element MultiPolygon, then add
each polygon in order. -/
def load_geojson_features (name_keys : List String) :
    List Feature → RegionTable → Except Err RegionTable
  | [], lookup => .ok lookup
  | f :: fs, lookup =>
    match resolveName name_keys f.properties with
    | none => .error .stopIteration
    | some rawName =>
      let name := capwords rawName
      let coordinates := match f.geometry with
        | .polygon p => [p]
        | .multiPolygon mp => mp
      load_geojson_features name_keys fs
        (coordinates.foldl (fun lk poly => addPolygon lk name poly) lookup)

/-- The rings stored in a lookup entry: every outer ring and every hole ring
of every stored polygon. -/
def entryRings (e : MultiPolygon) : List LinRing :=
  e.foldr (fun p acc => (p.1 :: p.2) ++ acc) []

mutual

/-- Every `geo_named_area` term in the tree whose category is one of the three
loaded categories names a region present in that category's table.  Terms with
an unknown category are exempt: the plain dict lookup raises `KeyError` before
the `defaultdict` is touched. -/
def regionsPresent (geo : Geojson) : GroupOrTerm → Bool
  | .node _ members => regionsPresentList geo members
  | .nested _ inner => regionsPresent geo inner
  | .namedArea _ category name =>
    match geojsonGet geo category with
    | some tbl => (tbl.lookup name).isSome
    | none => true
  | _ => true

/-- `regionsPresent` over every member of a group. -/
def regionsPresentList (geo : Geojson) : List GroupOrTerm → Bool
  | [] => true
  | t :: ts => regionsPresent geo t && regionsPresentList geo ts

end

/-- `regionsPresent` over the optional `filters` tree of a document. -/
def regionsPresentDoc (geo : Geojson) (doc : QueryDoc) : Bool :=
  match doc.filters with
  | none => true
  | some f => regionsPresent geo f

/-! ### Concrete fixtures used by witnesses and counterexamples -/

/-- A triangle ring (integer coordinates, GeoJSON lon/lat order). -/
def ringA : LinRing := [(.n 0, .n 0), (.n 0, .n 1), (.n 1, .n 1)]

/-- A second, distinct ring. -/
def ringB : LinRing := [(.n 5, .n 5), (.n 5, .n 6), (.n 6, .n 6)]

/-- A third ring, used as a hole. -/
def ringC : LinRing := [(.n 2, .n 2), (.n 2, .n 3), (.n 3, .n 3)]

/-- A one-polygon MultiPolygon for a region named Spain. -/
def mpSpain : MultiPolygon := [(ringA, [])]

/-- A small GeoRegion lookup: one country, no marine or geography regions. -/
def g0 : Geojson :=
  { country := [("Spain", mpSpain)], marine := [], geography := [] }

/-- The leaf `{"string_equals": {"fields": ["a"], "value": "x"}}`. -/
def leafA : GroupOrTerm := .fv "string_equals" ["a"] (.s "x")

/-- The leaf `{"number_equals": {"fields": ["b"], "value": 5}}`. -/
def leafB : GroupOrTerm := .fv "number_equals" ["b"] (.n 5)

/-- The term `{"geo_named_area": {"country": "Nowhereland"}}`, naming a country
absent from `g0`. -/
def nowhereTerm : GroupOrTerm := .namedArea "geo_named_area" "country" "Nowhereland"

/-- Properties naming the feature `Dupe` under the single key `name`. -/
def dupeProps : List (String × String) := [("name", "Dupe")]

/-- A feature whose MultiPolygon is the single polygon with outer `ringA` and
no holes. -/
def featureOne : Feature := ⟨dupeProps, .multiPolygon [(ringA, [])]⟩

/-- A feature, under the same name, whose single polygon has outer `ringA`
and hole `ringC`: every ring of it either repeats a stored ring (`ringA`) or
is new (`ringC`). -/
def featureTwo : Feature := ⟨dupeProps, .multiPolygon [(ringA, [ringC])]⟩

/-! ### Properties of the string order used by `sorted` -/

theorem charsLe_total : ∀ (a b : List Char), charsLe a b = true ∨ charsLe b a = true
  | [], _ => .inl rfl
  | _ :: _, [] => .inr rfl
  | a :: as, b :: bs => by
    by_cases hab : a < b
    · left; simp [charsLe, hab]
    · by_cases hba : b < a
      · right; simp [charsLe, hba]
      · have heq : a = b := le_antisymm (not_lt.mp hba) (not_lt.mp hab)
        subst heq
        rcases charsLe_total as bs with h | h
        · left; simp [charsLe, lt_irrefl, h]
        · right; simp [charsLe, lt_irrefl, h]

theorem charsLe_trans : ∀ (a b c : List Char),
    charsLe a b = true → charsLe b c = true → charsLe a c = true
  | [], _, _ => fun _ _ => rfl
  | _ :: _, [], _ => fun h _ => by simp [charsLe] at h
  | _ :: _, _ :: _, [] => fun _ h => by simp [charsLe] at h
  | a :: as, b :: bs, c :: cs => fun h1 h2 => by
    by_cases hab : a < b
    · by_cases hbc : b < c
      · simp [charsLe, lt_trans hab hbc]
      · by_cases hcb : c < b
        · exfalso; simp [charsLe, hbc, hcb] at h2
        · have : b = c := le_antisymm (not_lt.mp hcb) (not_lt.mp hbc)
          subst this; simp [charsLe, hab]
    · by_cases hba : b < a
      · exfalso; simp [charsLe, hab, hba] at h1
      · have : a = b := le_antisymm (not_lt.mp hba) (not_lt.mp hab)
        subst this
        simp only [charsLe, lt_irrefl, if_false] at h1
        by_cases hac : a < c
        · simp [charsLe, hac]
        · by_cases hca : c < a
          · exfalso; simp [charsLe, hac, hca] at h2
          · have : a = c := le_antisymm (not_lt.mp hca) (not_lt.mp hac)
            subst this
            simp only [charsLe, lt_irrefl, if_false] at h2 ⊢
            exact charsLe_trans as bs cs h1 h2

theorem charsLe_antisymm : ∀ (a b : List Char),
    charsLe a b = true → charsLe b a = true → a = b
  | [], [] => fun _ _ => rfl
  | [], _ :: _ => fun _ h => by simp [charsLe] at h
  | _ :: _, [] => fun h _ => by simp [charsLe] at h
  | a :: as, b :: bs => fun h1 h2 => by
    by_cases hab : a < b
    · exfalso; simp [charsLe, asymm hab, hab] at h2
    · by_cases hba : b < a
      · exfalso; simp [charsLe, hab, hba] at h1
      · have heq : a = b := le_antisymm (not_lt.mp hba) (not_lt.mp hab)
        subst heq
        simp only [charsLe, lt_irrefl, if_false] at h1 h2
        rw [charsLe_antisymm as bs h1 h2]

instance : IsTrans String pyRel :=
  ⟨fun _ _ _ h1 h2 => charsLe_trans _ _ _ h1 h2⟩

instance : IsTotal String pyRel :=
  ⟨fun a b => charsLe_total a.data b.data⟩

instance : IsAntisymm String pyRel :=
  ⟨fun a b h1 h2 => by
    have h := charsLe_antisymm a.data b.data h1 h2
    cases a; cases b; exact congrArg String.mk h⟩

theorem pySorted_perm (l : List String) : (pySorted l).Perm l :=
  List.perm_insertionSort pyRel l

theorem pySorted_sorted (l : List String) : List.Sorted pyRel (pySorted l) :=
  List.sorted_insertionSort pyRel l

/-- Permuting the input of `sorted` does not change its output. -/
theorem pySorted_congr {l₁ l₂ : List String} (h : l₁.Perm l₂) :
    pySorted l₁ = pySorted l₂ :=
  List.eq_of_perm_of_sorted
    ((pySorted_perm l₁).trans (h.trans (pySorted_perm l₂).symm))
    (pySorted_sorted l₁) (pySorted_sorted l₂)

/-! ### The hasher's group canonicalization is order-independent -/

theorem hasher_create_and_map (group : List GroupOrTerm) :
    v1_0_0Hasher.create_and group = (v1_0_0Hasher.hash_members group).map
      (fun members => "and:[" ++ String.intercalate "|" (pySorted members) ++ "]") := by
  cases h : v1_0_0Hasher.hash_members group <;>
    simp [v1_0_0Hasher.create_and, h, Except.map]

theorem hasher_create_or_map (group : List GroupOrTerm) :
    v1_0_0Hasher.create_or group = (v1_0_0Hasher.hash_members group).map
      (fun members => "or:[" ++ String.intercalate "|" (pySorted members) ++ "]") := by
  cases h : v1_0_0Hasher.hash_members group <;>
    simp [v1_0_0Hasher.create_or, h, Except.map]

theorem hasher_create_not_map (group : List GroupOrTerm) :
    v1_0_0Hasher.create_not group = (v1_0_0Hasher.hash_members group).map
      (fun members => "not:[" ++ String.intercalate "|" (pySorted members) ++ "]") := by
  cases h : v1_0_0Hasher.hash_members group <;>
    simp [v1_0_0Hasher.create_not, h, Except.map]

/-- Permuting a member list permutes (and in particular preserves) the set of
member canonical strings, when they all hash successfully. -/
theorem hash_members_perm {ms ms' : List GroupOrTerm} (h : ms.Perm ms')
    {ss : List String} (hok : v1_0_0Hasher.hash_members ms = .ok ss) :
    ∃ ss', v1_0_0Hasher.hash_members ms' = .ok ss' ∧ ss.Perm ss' := by
  induction h generalizing ss with
  | nil => exact ⟨ss, hok, List.Perm.refl ss⟩
  | cons x hp ih =>
    simp only [v1_0_0Hasher.hash_members] at hok
    split at hok
    · exact absurd hok (by simp)
    · rename_i s hx
      split at hok
      · exact absurd hok (by simp)
      · rename_i ss₁ hrest
        obtain rfl : s :: ss₁ = ss := by injection hok
        obtain ⟨ss', hss', hp'⟩ := ih hrest
        refine ⟨s :: ss', ?_, hp'.cons s⟩
        simp only [v1_0_0Hasher.hash_members, hx, hss']
  | swap x y l =>
    simp only [v1_0_0Hasher.hash_members] at hok
    split at hok
    · exact absurd hok (by simp)
    · rename_i sy hy
      split at hok
      · exact absurd hok (by simp)
      · rename_i tl htl
        split at htl
        · exact absurd htl (by simp)
        · rename_i sx hx
          split at htl
          · exact absurd htl (by simp)
          · rename_i sl hl
            obtain rfl : sx :: sl = tl := by injection htl
            obtain rfl : sy :: sx :: sl = ss := by injection hok
            refine ⟨sx :: sy :: sl, ?_, List.Perm.swap sx sy sl⟩
            simp only [v1_0_0Hasher.hash_members, hx, hy, hl]
  | trans h₁ h₂ ih₁ ih₂ =>
    obtain ⟨ss₁, h1, p1⟩ := ih₁ hok
    obtain ⟨ss₂, h2, p2⟩ := ih₂ h1
    exact ⟨ss₂, h2, p1.trans p2⟩

theorem hasher_create_and_perm {ms ms' : List GroupOrTerm} (h : ms.Perm ms')
    {s : String} (hok : v1_0_0Hasher.create_and ms = .ok s) :
    v1_0_0Hasher.create_and ms' = .ok s := by
  rw [hasher_create_and_map] at hok ⊢
  cases hms : v1_0_0Hasher.hash_members ms with
  | error e => rw [hms] at hok; exact absurd hok (by simp [Except.map])
  | ok ss =>
    rw [hms] at hok
    obtain ⟨ss', hss', hp⟩ := hash_members_perm h hms
    rw [hss']
    simpa [Except.map, pySorted_congr hp] using hok

theorem hasher_create_or_perm {ms ms' : List GroupOrTerm} (h : ms.Perm ms')
    {s : String} (hok : v1_0_0Hasher.create_or ms = .ok s) :
    v1_0_0Hasher.create_or ms' = .ok s := by
  rw [hasher_create_or_map] at hok ⊢
  cases hms : v1_0_0Hasher.hash_members ms with
  | error e => rw [hms] at hok; exact absurd hok (by simp [Except.map])
  | ok ss =>
    rw [hms] at hok
    obtain ⟨ss', hss', hp⟩ := hash_members_perm h hms
    rw [hss']
    simpa [Except.map, pySorted_congr hp] using hok

theorem hasher_create_not_perm {ms ms' : List GroupOrTerm} (h : ms.Perm ms')
    {s : String} (hok : v1_0_0Hasher.create_not ms = .ok s) :
    v1_0_0Hasher.create_not ms' = .ok s := by
  rw [hasher_create_not_map] at hok ⊢
  cases hms : v1_0_0Hasher.hash_members ms with
  | error e => rw [hms] at hok; exact absurd hok (by simp [Except.map])
  | ok ss =>
    rw [hms] at hok
    obtain ⟨ss', hss', hp⟩ := hash_members_perm h hms
    rw [hss']
    simpa [Except.map, pySorted_congr hp] using hok

/-! ### Frame lemmas: when the translator leaves the GeoRegion lookup alone -/

theorem schema_create_and_snd (geo : Geojson) (group : List GroupOrTerm) :
    (v1_0_0Schema.create_and geo group).2 =
      (v1_0_0Schema.translate_members geo group).2 := by
  rcases h : v1_0_0Schema.translate_members geo group with ⟨r, g⟩
  cases r <;> simp [v1_0_0Schema.create_and, h]

theorem schema_create_or_snd (geo : Geojson) (group : List GroupOrTerm) :
    (v1_0_0Schema.create_or geo group).2 =
      (v1_0_0Schema.translate_members geo group).2 := by
  rcases h : v1_0_0Schema.translate_members geo group with ⟨r, g⟩
  cases r <;> simp [v1_0_0Schema.create_or, h]

theorem schema_create_not_snd (geo : Geojson) (group : List GroupOrTerm) :
    (v1_0_0Schema.create_not geo group).2 =
      (v1_0_0Schema.translate_members geo group).2 := by
  rcases h : v1_0_0Schema.translate_members geo group with ⟨r, g⟩
  cases r <;> simp [v1_0_0Schema.create_not, h]

/-- Writing back the very table that was read leaves the lookup unchanged. -/
theorem geojsonSet_self {g : Geojson} {c : String} {t : RegionTable}
    (h : geojsonGet g c = some t) : geojsonSet g c t = g := by
  by_cases h1 : c = "country"
  · simp only [geojsonGet, h1, if_true] at h
    obtain rfl : g.country = t := by injection h
    simp [geojsonSet, h1]
  · by_cases h2 : c = "marine"
    · simp only [geojsonGet, h1, h2, if_false, if_true] at h
      obtain rfl : g.marine = t := by injection h
      simp [geojsonSet, h1, h2]
    · by_cases h3 : c = "geography"
      · simp only [geojsonGet, h1, h2, h3, if_false, if_true] at h
        obtain rfl : g.geography = t := by injection h
        simp [geojsonSet, h1, h2, h3]
      · simp [geojsonGet, h1, h2, h3] at h

mutual

/-- When every named region of the term is present, translating it returns the
lookup exactly as given. -/
theorem schema_cgot_frame (t : GroupOrTerm) (geo : Geojson)
    (h : regionsPresent geo t = true) :
    (v1_0_0Schema.create_group_or_term geo t).2 = geo := by
  cases t with
  | node op ms =>
    have hms : (v1_0_0Schema.translate_members geo ms).2 = geo :=
      schema_tm_frame ms geo (by simpa [regionsPresent] using h)
    rcases htm : v1_0_0Schema.translate_members geo ms with ⟨r, g1⟩
    obtain rfl : g1 = geo := by rw [htm] at hms; exact hms
    simp only [v1_0_0Schema.create_group_or_term]
    split_ifs <;> cases r <;> simp [htm]
  | fv op fields value =>
    simp only [v1_0_0Schema.create_group_or_term]; split_ifs <;> rfl
  | rangeOpts op fields lt gt ltIncl gtIncl =>
    simp only [v1_0_0Schema.create_group_or_term]; split_ifs <;> rfl
  | existsOpts op fields geo_field =>
    simp only [v1_0_0Schema.create_group_or_term]; split_ifs <;> rfl
  | geoPointOpts op latitude longitude radius radius_unit =>
    simp only [v1_0_0Schema.create_group_or_term]; split_ifs <;> rfl
  | coordsTerm op coordinates =>
    simp only [v1_0_0Schema.create_group_or_term]; split_ifs <;> rfl
  | namedArea op category name =>
    simp only [v1_0_0Schema.create_group_or_term]
    split_ifs
    · unfold v1_0_0Schema.create_geo_named_area
      cases hg : geojsonGet geo category with
      | none => simp
      | some tbl =>
        have hn : (tbl.lookup name).isSome := by
          simpa [regionsPresent, hg] using h
        obtain ⟨v, hv⟩ := Option.isSome_iff_exists.mp hn
        simp [ddGet, hv, geojsonSet_self hg]
    · rfl
  | nested op inner =>
    by_cases h1 : op = "group_or_term"
    · have := schema_cgot_frame inner geo (by simpa [regionsPresent] using h)
      simpa [v1_0_0Schema.create_group_or_term, h1] using this
    · simp [v1_0_0Schema.create_group_or_term, h1]

/-- When every named region of every member is present, translating a member
list returns the lookup exactly as given. -/
theorem schema_tm_frame (ts : List GroupOrTerm) (geo : Geojson)
    (h : regionsPresentList geo ts = true) :
    (v1_0_0Schema.translate_members geo ts).2 = geo := by
  cases ts with
  | nil => rfl
  | cons t ts =>
    have hsplit : regionsPresent geo t = true ∧ regionsPresentList geo ts = true := by
      simpa [regionsPresentList, Bool.and_eq_true] using h
    have ht := schema_cgot_frame t geo hsplit.1
    rcases hc : v1_0_0Schema.create_group_or_term geo t with ⟨r, g1⟩
    have hg1 : g1 = geo := by rw [hc] at ht; exact ht
    rw [hg1] at hc
    cases r with
    | error e => simp [v1_0_0Schema.translate_members, hc]
    | ok q =>
      have hts := schema_tm_frame ts geo hsplit.2
      rcases hrest : v1_0_0Schema.translate_members geo ts with ⟨r2, g2⟩
      have hg2 : g2 = geo := by rw [hrest] at hts; exact hts
      rw [hg2] at hrest
      cases r2 <;> simp [v1_0_0Schema.translate_members, hc, hrest]

end

/-! ### Claim C1: unknown region handling -/

/-- C1 counterexample: translating
`{"filters": {"geo_named_area": {"country": "Nowhereland"}}}` against a lookup
that does not contain Nowhereland does NOT fail: because the per-category
table is a `defaultdict(list)`, the missing name yields an empty MultiPolygon
and the translator returns a query tree (an empty `Bool` should with
`minimum_should_match=1`), contradicting the claim that an `UnknownRegion`
error is surfaced. -/
theorem c1_unknown_region_counterexample :
    (v1_0_0Schema.translate g0 ⟨none, some nowhereTerm, []⟩).1 =
      .ok [.bool [] [] [] (some 1)] := rfl

/-- C1 amended: only a `geo_named_area` whose category is absent from the
lookup fails (with a `KeyError` on the category); a known category with an
absent name instead yields an empty `Bool` should query (which matches
nothing) and no error. -/
theorem c1_unknown_region_amended (geo : Geojson) (category name : String) :
    (geojsonGet geo category = none →
      v1_0_0Schema.create_group_or_term geo
          (.namedArea "geo_named_area" category name) =
        (.error (.keyError category), geo)) ∧
    (∀ tbl, geojsonGet geo category = some tbl → tbl.lookup name = none →
      (v1_0_0Schema.create_group_or_term geo
          (.namedArea "geo_named_area" category name)).1 =
        .ok (.bool [] [] [] (some 1))) := by
  constructor
  · intro h
    simp [v1_0_0Schema.create_group_or_term, v1_0_0Schema.create_geo_named_area, h]
  · intro tbl h hn
    simp [v1_0_0Schema.create_group_or_term, v1_0_0Schema.create_geo_named_area,
      h, ddGet, hn, v1_0_0Schema.build_multipolygon_query, v1_0_0Schema.build_or]

/-- C1 witness: both amended branches at concrete inputs. -/
theorem c1_unknown_region_amended_witness :
    v1_0_0Schema.create_group_or_term g0 (.namedArea "geo_named_area" "ocean" "X") =
      (.error (.keyError "ocean"), g0) ∧
    (v1_0_0Schema.create_group_or_term g0
        (.namedArea "geo_named_area" "country" "Nowhereland")).1 =
      .ok (.bool [] [] [] (some 1)) :=
  ⟨(c1_unknown_region_amended g0 "ocean" "X").1 rfl,
   (c1_unknown_region_amended g0 "country" "Nowhereland").2
     [("Spain", mpSpain)] rfl rfl⟩

/-! ### Claim C2: is the GeoRegion lookup read-only under translate? -/

/-- C2 counterexample: translating the Nowhereland document MUTATES the
lookup: the `defaultdict` read inserts an empty entry for the unknown name, so
the lookup after `translate` differs from the one before. -/
theorem c2_lookup_mutation_counterexample :
    (v1_0_0Schema.translate g0 ⟨none, some nowhereTerm, []⟩).2 =
      { g0 with country := g0.country ++ [("Nowhereland", [])] } ∧
    (v1_0_0Schema.translate g0 ⟨none, some nowhereTerm, []⟩).2 ≠ g0 := by
  exact ⟨rfl, by decide⟩

/-- C2 amended: the hasher never touches the lookup (its embedding does not
even receive it), and `translate` returns the lookup unchanged provided every
`geo_named_area` term whose category is known names a present region; the sole
mutation is the `defaultdict` insertion exhibited by the counterexample. -/
theorem c2_lookup_frame_amended (geo : Geojson) (doc : QueryDoc)
    (h : regionsPresentDoc geo doc = true) :
    (v1_0_0Schema.translate geo doc).2 = geo := by
  unfold v1_0_0Schema.translate v1_0_0Schema.add_filters
  cases hf : doc.filters with
  | none => simp [hf]
  | some f =>
    have hfr := schema_cgot_frame f geo (by simpa [regionsPresentDoc, hf] using h)
    rcases hc : v1_0_0Schema.create_group_or_term geo f with ⟨r, g1⟩
    have hg1 : g1 = geo := by rw [hc] at hfr; exact hfr
    rw [hg1] at hc
    cases r <;> simp [hf, hc]

/-- C2 witness: a document using the present region Spain (and a search text)
leaves the lookup exactly as it was. -/
theorem c2_lookup_frame_witness :
    (v1_0_0Schema.translate g0
        ⟨some "rosa", some (.namedArea "geo_named_area" "country" "Spain"), []⟩).2 =
      g0 :=
  c2_lookup_frame_amended g0
    ⟨some "rosa", some (.namedArea "geo_named_area" "country" "Spain"), []⟩ rfl

/-! ### Claim C3: unknown operators -/

/-- C3 counterexample: the operator name `group_or_term` is outside the known
operator set of the claim, yet neither the translator nor the hasher fails on
it: `getattr` finds the dispatcher method `create_group_or_term` itself, which
treats the options as a nested single-key term and translates it. -/
theorem c3_unknown_operator_counterexample :
    (v1_0_0Schema.create_group_or_term g0 (.nested "group_or_term" leafA)).1 =
      .ok (.term "data.a" (.s "x")) ∧
    v1_0_0Hasher.create_group_or_term (.nested "group_or_term" leafA) =
      .ok "string_equals:a;x" :=
  ⟨rfl, rfl⟩

/-- C3 amended: an operator name for which no `create_<op>` method exists — a
name outside the known set AND distinct from `group_or_term` — makes both the
translator and the hasher fail immediately with an `AttributeError`. -/
theorem c3_unknown_operator_amended (geo : Geojson) (t : GroupOrTerm)
    (h : t.op ∉ knownMethods) :
    (v1_0_0Schema.create_group_or_term geo t).1 =
      .error (.attributeError t.op) ∧
    v1_0_0Hasher.create_group_or_term t = .error (.attributeError t.op) := by
  have hne : ∀ s ∈ knownMethods, t.op ≠ s := fun s hs he => h (he ▸ hs)
  have h01 : t.op ≠ "group_or_term" := hne _ (by decide)
  have h02 : t.op ≠ "and" := hne _ (by decide)
  have h03 : t.op ≠ "or" := hne _ (by decide)
  have h04 : t.op ≠ "not" := hne _ (by decide)
  have h05 : t.op ≠ "string_equals" := hne _ (by decide)
  have h06 : t.op ≠ "string_contains" := hne _ (by decide)
  have h07 : t.op ≠ "number_equals" := hne _ (by decide)
  have h08 : t.op ≠ "number_range" := hne _ (by decide)
  have h09 : t.op ≠ "exists" := hne _ (by decide)
  have h10 : t.op ≠ "geo_point" := hne _ (by decide)
  have h11 : t.op ≠ "geo_named_area" := hne _ (by decide)
  have h12 : t.op ≠ "geo_custom_area" := hne _ (by decide)
  cases t <;>
    simp_all [GroupOrTerm.op, v1_0_0Schema.create_group_or_term,
      v1_0_0Hasher.create_group_or_term, dispatchFail]

/-- C3 witness: the unknown operator `xor` raises `AttributeError` in both
translator and hasher. -/
theorem c3_unknown_operator_amended_witness :
    (v1_0_0Schema.create_group_or_term g0 (.fv "xor" ["a"] (.s "x"))).1 =
      .error (.attributeError "xor") ∧
    v1_0_0Hasher.create_group_or_term (.fv "xor" ["a"] (.s "x")) =
      .error (.attributeError "xor") :=
  c3_unknown_operator_amended g0 (.fv "xor" ["a"] (.s "x")) (by decide)

/-! ### Claim C4: group hashes are member-order independent -/

theorem hasher_dispatch_and (ms : List GroupOrTerm) :
    v1_0_0Hasher.create_group_or_term (.node "and" ms) =
      v1_0_0Hasher.create_and ms := rfl

theorem hasher_dispatch_or (ms : List GroupOrTerm) :
    v1_0_0Hasher.create_group_or_term (.node "or" ms) =
      v1_0_0Hasher.create_or ms := rfl

theorem hasher_dispatch_not (ms : List GroupOrTerm) :
    v1_0_0Hasher.create_group_or_term (.node "not" ms) =
      v1_0_0Hasher.create_not ms := rfl

/-- C4: for each group operator (`and`, `or`, `not`), hashing a document whose
filter tree is that group with its members in any permutation yields the same
digest: the member canonical strings are sorted before joining. -/
theorem c4_hash_group_order_independent (srch : Option String)
    (extra : List (String × Prim)) (op : String)
    (ms ms' : List GroupOrTerm) (d : String)
    (hop : op = "and" ∨ op = "or" ∨ op = "not")
    (hperm : ms.Perm ms')
    (h : v1_0_0Hasher.hash_query ⟨srch, some (.node op ms), extra⟩ = .ok d) :
    v1_0_0Hasher.hash_query ⟨srch, some (.node op ms'), extra⟩ = .ok d := by
  rcases hop with rfl | rfl | rfl
  · simp only [v1_0_0Hasher.hash_query] at h ⊢
    rw [hasher_dispatch_and] at h ⊢
    cases hc : v1_0_0Hasher.create_and ms with
    | error e => rw [hc] at h; exact absurd h (by simp)
    | ok s => rw [hc] at h; rw [hasher_create_and_perm hperm hc]; exact h
  · simp only [v1_0_0Hasher.hash_query] at h ⊢
    rw [hasher_dispatch_or] at h ⊢
    cases hc : v1_0_0Hasher.create_or ms with
    | error e => rw [hc] at h; exact absurd h (by simp)
    | ok s => rw [hc] at h; rw [hasher_create_or_perm hperm hc]; exact h
  · simp only [v1_0_0Hasher.hash_query] at h ⊢
    rw [hasher_dispatch_not] at h ⊢
    cases hc : v1_0_0Hasher.create_not ms with
    | error e => rw [hc] at h; exact absurd h (by simp)
    | ok s => rw [hc] at h; rw [hasher_create_not_perm hperm hc]; exact h

set_option maxRecDepth 8192 in
/-- C4 witness: `hash({"filters": {"and": [A, B]}})` equals
`hash({"filters": {"and": [B, A]}})` for the concrete leaves `leafA`, `leafB`,
with the digest computed explicitly. -/
theorem c4_hash_group_order_independent_witness :
    v1_0_0Hasher.hash_query ⟨none, some (.node "and" [leafA, leafB]), []⟩ =
      .ok "2d165494f4bfe40ae22d9abdc638fcc47f543396" ∧
    v1_0_0Hasher.hash_query ⟨none, some (.node "and" [leafB, leafA]), []⟩ =
      .ok "2d165494f4bfe40ae22d9abdc638fcc47f543396" :=
  ⟨rfl,
   c4_hash_group_order_independent none [] "and" [leafA, leafB] [leafB, leafA]
     "2d165494f4bfe40ae22d9abdc638fcc47f543396" (.inl rfl)
     (List.Perm.swap leafB leafA []) rfl⟩

/-! ### Claim C5: or-collapse and group combination -/

/-- C5: a one-member `and` or `or` group translates to exactly what its member
translates to (no wrapping boolean node); a group whose members translate to
two or more predicates becomes a `Bool` filter (for `and`) or a `Bool` should
with `minimum_should_match=1` (for `or`); and EVERY leaf carrying a fields
list collapses the same way: with a single field the bare per-field query is
returned (a term query for `string_equals` and `number_equals`, a match query
on the `.full` subfield for `string_contains`, a range query for
`number_range`, an exists query for `exists` when `geo_field` is falsy), and
with two or more fields the or-combination of the per-field queries with
`minimum_should_match=1`. -/
theorem c5_or_collapse :
    (∀ (geo : Geojson) (t : GroupOrTerm),
      v1_0_0Schema.create_group_or_term geo (.node "and" [t]) =
          v1_0_0Schema.create_group_or_term geo t ∧
        v1_0_0Schema.create_group_or_term geo (.node "or" [t]) =
          v1_0_0Schema.create_group_or_term geo t) ∧
    (∀ (geo geo1 : Geojson) (g : List GroupOrTerm) (ms : List QueryNode),
      2 ≤ ms.length →
      v1_0_0Schema.translate_members geo g = (.ok ms, geo1) →
      v1_0_0Schema.create_group_or_term geo (.node "and" g) =
          (.ok (.bool ms [] [] none), geo1) ∧
        v1_0_0Schema.create_group_or_term geo (.node "or" g) =
          (.ok (.bool [] ms [] (some 1)), geo1)) ∧
    (∀ (f : String) (v : Prim),
      v1_0_0Schema.create_string_equals [f] v = .term (prefixField f) v) ∧
    (∀ (f1 f2 : String) (fs : List String) (v : Prim),
      v1_0_0Schema.create_string_equals (f1 :: f2 :: fs) v =
        .bool [] ((f1 :: f2 :: fs).map (fun x => .term (prefixField x) v)) []
          (some 1)) ∧
    (∀ (f : String) (v : Prim),
      v1_0_0Schema.create_string_contains [f] v =
        .matchQ (prefixField f ++ ".full") v "and") ∧
    (∀ (f1 f2 : String) (fs : List String) (v : Prim),
      v1_0_0Schema.create_string_contains (f1 :: f2 :: fs) v =
        .bool []
          ((f1 :: f2 :: fs).map
            (fun x => .matchQ (prefixField x ++ ".full") v "and")) []
          (some 1)) ∧
    (∀ (f : String) (v : Prim),
      v1_0_0Schema.create_number_equals [f] v =
        .term (prefixField f ++ ".number") v) ∧
    (∀ (f1 f2 : String) (fs : List String) (v : Prim),
      v1_0_0Schema.create_number_equals (f1 :: f2 :: fs) v =
        .bool []
          ((f1 :: f2 :: fs).map
            (fun x => .term (prefixField x ++ ".number") v)) []
          (some 1)) ∧
    (∀ (f : String) (lt gt : Option Prim) (ltIncl gtIncl : Option Bool),
      ∃ lo hi glo ghi,
        v1_0_0Schema.create_number_range [f] lt gt ltIncl gtIncl =
          .rangeQ (prefixField f ++ ".number") lo hi glo ghi) ∧
    (∀ (f1 f2 : String) (fs : List String) (lt gt : Option Prim)
        (ltIncl gtIncl : Option Bool),
      v1_0_0Schema.create_number_range (f1 :: f2 :: fs) lt gt ltIncl gtIncl =
        .bool []
          ((f1 :: f2 :: fs).map
            (fun x => v1_0_0Schema.create_number_range [x] lt gt ltIncl gtIncl))
          [] (some 1)) ∧
    (∀ (f : String) (gf : Option Bool), gf.getD false = false →
      v1_0_0Schema.create_exists [f] gf = .existsQ (prefixField f)) ∧
    (∀ (f1 f2 : String) (fs : List String) (gf : Option Bool),
      gf.getD false = false →
      v1_0_0Schema.create_exists (f1 :: f2 :: fs) gf =
        .bool [] ((f1 :: f2 :: fs).map (fun x => .existsQ (prefixField x))) []
          (some 1)) := by
  refine ⟨?_, ?_, ?_, ?_, ?_, ?_, ?_, ?_, ?_, ?_, ?_, ?_⟩
  · intro geo t
    rcases h : v1_0_0Schema.create_group_or_term geo t with ⟨r, g1⟩
    cases r <;>
      constructor <;>
        simp [v1_0_0Schema.create_group_or_term, v1_0_0Schema.translate_members,
          h, v1_0_0Schema.build_or]
  · intro geo geo1 g ms hlen htm
    match ms, hlen with
    | m1 :: m2 :: rest, _ =>
      constructor <;>
        simp [v1_0_0Schema.create_group_or_term, htm, v1_0_0Schema.build_or]
  · intro f v; rfl
  · intro f1 f2 fs v; rfl
  · intro f v; rfl
  · intro f1 f2 fs v; rfl
  · intro f v; rfl
  · intro f1 f2 fs v; rfl
  · intro f lt gt ltIncl gtIncl; exact ⟨_, _, _, _, rfl⟩
  · intro f1 f2 fs lt gt ltIncl gtIncl; rfl
  · intro f gf h
    simp [v1_0_0Schema.create_exists, h, v1_0_0Schema.build_or]
  · intro f1 f2 fs gf h
    simp [v1_0_0Schema.create_exists, h, v1_0_0Schema.build_or]

/-- C5 witness: the general statement instantiated at concrete inputs: a
one-member group collapses, a two-member group wraps, a one-field
`string_equals` leaf is the bare term, and a one-field `exists` leaf (with
its falsiness hypothesis discharged) is the bare exists query. -/
theorem c5_or_collapse_witness :
    v1_0_0Schema.create_group_or_term g0 (.node "and" [leafA]) =
        v1_0_0Schema.create_group_or_term g0 leafA ∧
    v1_0_0Schema.create_group_or_term g0 (.node "or" [leafA, leafB]) =
        (.ok (.bool []
          [.term "data.a" (.s "x"), .term "data.b.number" (.n 5)] [] (some 1)),
          g0) ∧
    v1_0_0Schema.create_string_equals ["a"] (.s "x") = .term "data.a" (.s "x") ∧
    v1_0_0Schema.create_exists ["x"] none = .existsQ "data.x" := by
  obtain ⟨h1, h2, h3, h4, h5, h6, h7, h8, h9, h10, h11, h12⟩ := c5_or_collapse
  exact ⟨(h1 g0 leafA).1,
    (h2 g0 g0 [leafA, leafB]
      [.term "data.a" (.s "x"), .term "data.b.number" (.n 5)]
      (by decide) rfl).2,
    h3 "a" (.s "x"),
    h11 "x" none rfl⟩

/-! ### Claim C6: number_range boundary semantics -/

/-- C6: per field, `number_range` produces a range query on the `.number`
subfield of the prefixed field whose upper bound is keyed `lte` when
`less_than_inclusive` (which defaults to true) and `lt` otherwise, present only
when `less_than` is given; symmetrically `gte`/`gt` for the lower bound; with
several fields the per-field ranges are or-combined.  Covered shapes: each
single bound under all three inclusivity settings, no bounds, both bounds
together (default, both-exclusive and the two mixed settings), a multi-field
term, and finally the fully general form: for EVERY combination of options the
bound keys are exactly the claimed conditionals. -/
theorem c6_number_range_bounds (f f2 : String) (n m : Prim) :
    (v1_0_0Schema.create_number_range [f] (some n) none (some false) none =
      .rangeQ (prefixField f ++ ".number") (some n) none none none) ∧
    (v1_0_0Schema.create_number_range [f] (some n) none (some true) none =
      .rangeQ (prefixField f ++ ".number") none (some n) none none) ∧
    (v1_0_0Schema.create_number_range [f] (some n) none none none =
      .rangeQ (prefixField f ++ ".number") none (some n) none none) ∧
    (v1_0_0Schema.create_number_range [f] none (some n) none (some false) =
      .rangeQ (prefixField f ++ ".number") none none (some n) none) ∧
    (v1_0_0Schema.create_number_range [f] none (some n) none (some true) =
      .rangeQ (prefixField f ++ ".number") none none none (some n)) ∧
    (v1_0_0Schema.create_number_range [f] none (some n) none none =
      .rangeQ (prefixField f ++ ".number") none none none (some n)) ∧
    (v1_0_0Schema.create_number_range [f] none none none none =
      .rangeQ (prefixField f ++ ".number") none none none none) ∧
    (v1_0_0Schema.create_number_range [f, f2] (some n) none none none =
      .bool []
        [.rangeQ (prefixField f ++ ".number") none (some n) none none,
         .rangeQ (prefixField f2 ++ ".number") none (some n) none none] []
        (some 1)) ∧
    (v1_0_0Schema.create_number_range [f] (some n) (some m) none none =
      .rangeQ (prefixField f ++ ".number") none (some n) none (some m)) ∧
    (v1_0_0Schema.create_number_range [f] (some n) (some m) (some false) (some false) =
      .rangeQ (prefixField f ++ ".number") (some n) none (some m) none) ∧
    (v1_0_0Schema.create_number_range [f] (some n) (some m) (some false) (some true) =
      .rangeQ (prefixField f ++ ".number") (some n) none none (some m)) ∧
    (v1_0_0Schema.create_number_range [f] (some n) (some m) (some true) (some false) =
      .rangeQ (prefixField f ++ ".number") none (some n) (some m) none) ∧
    (∀ (lt gt : Option Prim) (ltIncl gtIncl : Option Bool),
      v1_0_0Schema.create_number_range [f] lt gt ltIncl gtIncl =
        .rangeQ (prefixField f ++ ".number")
          (match lt with
           | none => none
           | some v => if ltIncl.getD true then none else some v)
          (match lt with
           | none => none
           | some v => if ltIncl.getD true then some v else none)
          (match gt with
           | none => none
           | some v => if gtIncl.getD true then none else some v)
          (match gt with
           | none => none
           | some v => if gtIncl.getD true then some v else none)) := by
  refine ⟨rfl, rfl, rfl, rfl, rfl, rfl, rfl, rfl, rfl, rfl, rfl, rfl, ?_⟩
  intro lt gt ltIncl gtIncl
  cases lt with
  | none =>
    cases gt with
    | none => rfl
    | some gv =>
      cases hg : gtIncl.getD true <;>
        simp [v1_0_0Schema.create_number_range, v1_0_0Schema.build_or, hg]
  | some lv =>
    cases gt with
    | none =>
      cases hl : ltIncl.getD true <;>
        simp [v1_0_0Schema.create_number_range, v1_0_0Schema.build_or, hl]
    | some gv =>
      cases hl : ltIncl.getD true <;> cases hg : gtIncl.getD true <;>
        simp [v1_0_0Schema.create_number_range, v1_0_0Schema.build_or, hl, hg]
/-! ### Claim C7: the loader's deduplication granularity -/

/-- A value found by `lookup` is the value of some entry, so any property of
all entry values holds for it. -/
theorem regionTable_lookup_prop {P : MultiPolygon → Prop} :
    ∀ (t : RegionTable), (∀ kv ∈ t, P kv.2) →
      ∀ {k : String} {v : MultiPolygon}, t.lookup k = some v → P v := by
  intro t ht k v hl
  induction t with
  | nil => simp [List.lookup] at hl
  | cons a t ih =>
    rw [List.lookup] at hl
    by_cases h : k == a.1
    · simp only [h, if_true] at hl
      obtain rfl : a.2 = v := by injection hl
      exact ht a (by simp)
    · simp only [h, if_false] at hl
      exact ih (fun kv hkv => ht kv (by simp [hkv])) hl

/-- Every lookup entry stays duplicate-free (as a list of whole polygons) when
a polygon is merged in. -/
theorem addPolygon_nodup {t : RegionTable}
    (ht : ∀ kv ∈ t, (kv.2 : MultiPolygon).Nodup) (name : String) (p : PolygonT) :
    ∀ kv ∈ addPolygon t name p, (kv.2 : MultiPolygon).Nodup := by
  unfold addPolygon
  cases hl : t.lookup name with
  | none =>
    intro kv hkv
    rcases List.mem_append.mp hkv with hin | hin
    · exact ht kv hin
    · simp at hin; subst hin; simp
  | some ps =>
    have hps : ps.Nodup := regionTable_lookup_prop t ht hl
    by_cases hp : p ∈ ps
    · simpa [hp] using ht
    · simp only [hp, if_false]
      intro kv hkv
      rcases List.mem_map.mp hkv with ⟨kv0, hkv0, heq⟩
      by_cases hk : kv0.1 = name
      · simp only [hk, if_true] at heq
        subst heq
        simpa [List.nodup_append, hp] using hps
      · simp only [hk, if_false] at heq
        subst heq
        exact ht kv0 hkv0

/-- The per-feature polygon fold preserves duplicate-freeness of every entry. -/
theorem foldl_addPolygon_nodup (name : String) :
    ∀ (polys : List PolygonT) (t : RegionTable),
      (∀ kv ∈ t, (kv.2 : MultiPolygon).Nodup) →
      ∀ kv ∈ polys.foldl (fun lk poly => addPolygon lk name poly) t,
        (kv.2 : MultiPolygon).Nodup
  | [], _, ht => ht
  | p :: polys, t, ht =>
    foldl_addPolygon_nodup name polys (addPolygon t name p)
      (addPolygon_nodup ht name p)

/-- The whole loader fold preserves duplicate-freeness of every entry. -/
theorem load_geojson_features_nodup (name_keys : List String) :
    ∀ (features : List Feature) (t : RegionTable),
      (∀ kv ∈ t, (kv.2 : MultiPolygon).Nodup) →
      ∀ {lkp : RegionTable},
        load_geojson_features name_keys features t = .ok lkp →
        ∀ kv ∈ lkp, (kv.2 : MultiPolygon).Nodup := by
  intro features
  induction features with
  | nil =>
    intro t ht lkp hl
    simp only [load_geojson_features] at hl
    obtain rfl : t = lkp := by injection hl
    exact ht
  | cons f fs ih =>
    intro t ht lkp hl
    simp only [load_geojson_features] at hl
    cases hr : resolveName name_keys f.properties with
    | none => rw [hr] at hl; exact absurd hl (by simp)
    | some rawName =>
      rw [hr] at hl
      exact ih _ (foldl_addPolygon_nodup _ _ t ht) hl

/-- C7 counterexample: two features named `Dupe`, the first carrying the bare
polygon `[ringA]`, the second the polygon `[ringA, ringC]` (outer `ringA` with
hole `ringC`).  Under the claimed ring-granularity merge, `ringA` — already
present — would be skipped.  The code instead compares whole polygons, finds
`[ringA, ringC]` different from `[ringA]`, and appends it, so the stored entry
holds the ring `ringA` twice. -/
theorem c7_ring_dedup_counterexample :
    load_geojson_features ["name"] [featureOne, featureTwo] [] =
      .ok [("Dupe", [(ringA, []), (ringA, [ringC])])] ∧
    ¬ (entryRings [(ringA, []), (ringA, [ringC])]).Nodup :=
  ⟨rfl, by decide⟩

/-- C7 amended: the merge deduplicates at whole-polygon granularity: a polygon
(its complete ring list) equal to one already stored under the name is
skipped, and consequently every entry of a freshly built lookup is a
duplicate-free list of polygons; individual rings can still appear several
times across different stored polygons. -/
theorem c7_polygon_dedup_amended :
    (∀ (t : RegionTable) (name : String) (p : PolygonT) (ps : MultiPolygon),
      t.lookup name = some ps → p ∈ ps → addPolygon t name p = t) ∧
    (∀ (name_keys : List String) (features : List Feature) (lkp : RegionTable),
      load_geojson_features name_keys features [] = .ok lkp →
      ∀ kv ∈ lkp, (kv.2 : MultiPolygon).Nodup) := by
  constructor
  · intro t name p ps hl hp
    simp [addPolygon, hl, hp]
  · intro name_keys features lkp hl
    exact load_geojson_features_nodup name_keys features [] (by simp) hl

/-- C7 witness: a polygon already present is skipped, and the entry built by
the counterexample load is duplicate-free as a polygon list (even though its
rings repeat). -/
theorem c7_polygon_dedup_amended_witness :
    addPolygon [("Dupe", [(ringA, [])])] "Dupe" (ringA, []) =
      [("Dupe", [(ringA, [])])] ∧
    (([(ringA, []), (ringA, [ringC])] : MultiPolygon)).Nodup :=
  ⟨c7_polygon_dedup_amended.1 [("Dupe", [(ringA, [])])] "Dupe" (ringA, [])
      [(ringA, [])] rfl (by decide),
   c7_polygon_dedup_amended.2 ["name"] [featureOne, featureTwo]
      [("Dupe", [(ringA, []), (ringA, [ringC])])] rfl
      ("Dupe", [(ringA, []), (ringA, [ringC])]) (by decide)⟩

/-! ### Claim C8: geo_custom_area hash shape sensitivity -/

set_option maxRecDepth 8192 in
/-- C8: reversing the point order of a `geo_custom_area` outer ring changes
the digest (shown on a concrete triangle: the two digests differ), while
permuting the hole rings of a polygon never changes the digest (the hole
strings are sorted before being appended). -/
theorem c8_geo_custom_area_shape_sensitivity :
    (v1_0_0Hasher.hash_query
        ⟨none, some (.coordsTerm "geo_custom_area" [(ringA, [])]), []⟩ =
          .ok "03672cc3ea0db81cf41fff890688e001f36bff20" ∧
      v1_0_0Hasher.hash_query
        ⟨none, some (.coordsTerm "geo_custom_area" [(ringA.reverse, [])]), []⟩ =
          .ok "08c0f66f34defae31608131260f4d4f75f9b2a82" ∧
      ("03672cc3ea0db81cf41fff890688e001f36bff20" : String) ≠
        "08c0f66f34defae31608131260f4d4f75f9b2a82") ∧
    (∀ (srch : Option String) (extra : List (String × Prim)) (outer : LinRing)
        (holes holes' : List LinRing),
      holes.Perm holes' →
      v1_0_0Hasher.hash_query
          ⟨srch, some (.coordsTerm "geo_custom_area" [(outer, holes)]), extra⟩ =
        v1_0_0Hasher.hash_query
          ⟨srch, some (.coordsTerm "geo_custom_area" [(outer, holes')]), extra⟩) := by
  refine ⟨⟨rfl, rfl, by decide⟩, ?_⟩
  intro srch extra outer holes holes' hperm
  have hs : pySorted (holes.map v1_0_0Hasher.build_geo_polygon_query) =
      pySorted (holes'.map v1_0_0Hasher.build_geo_polygon_query) :=
    pySorted_congr (hperm.map _)
  cases holes with
  | nil =>
    obtain rfl : holes' = [] := List.Perm.eq_nil hperm.symm
    rfl
  | cons h1 t1 =>
    cases holes' with
    | nil => exact absurd (List.Perm.eq_nil hperm) (by simp)
    | cons h2 t2 =>
      simp only [v1_0_0Hasher.hash_query, v1_0_0Hasher.create_group_or_term,
        v1_0_0Hasher.create_geo_custom_area, List.map_cons, List.map_nil] at hs ⊢
      rw [hs]

/-- C8 witness: the hole-permutation half at a concrete polygon: swapping the
two holes leaves the document digest unchanged. -/
theorem c8_geo_custom_area_witness :
    v1_0_0Hasher.hash_query
        ⟨none, some (.coordsTerm "geo_custom_area" [(ringA, [ringB, ringC])]), []⟩ =
      v1_0_0Hasher.hash_query
        ⟨none, some (.coordsTerm "geo_custom_area" [(ringA, [ringC, ringB])]), []⟩ :=
  c8_geo_custom_area_shape_sensitivity.2 none [] ringA [ringB, ringC]
    [ringC, ringB] (List.Perm.swap ringC ringB [])

/-! ### Claim C9: leaf hashes are field-order independent -/

/-- C9: for every leaf kind carrying a `fields` list, the digest is invariant
under permuting the field names: the hasher sorts the names before joining. -/
theorem c9_hash_fields_order_independent (srch : Option String)
    (extra : List (String × Prim)) (fields fields' : List String)
    (hperm : fields.Perm fields') :
    (∀ v, v1_0_0Hasher.hash_query
        ⟨srch, some (.fv "string_equals" fields v), extra⟩ =
      v1_0_0Hasher.hash_query
        ⟨srch, some (.fv "string_equals" fields' v), extra⟩) ∧
    (∀ v, v1_0_0Hasher.hash_query
        ⟨srch, some (.fv "string_contains" fields v), extra⟩ =
      v1_0_0Hasher.hash_query
        ⟨srch, some (.fv "string_contains" fields' v), extra⟩) ∧
    (∀ v, v1_0_0Hasher.hash_query
        ⟨srch, some (.fv "number_equals" fields v), extra⟩ =
      v1_0_0Hasher.hash_query
        ⟨srch, some (.fv "number_equals" fields' v), extra⟩) ∧
    (∀ lt gt ltIncl gtIncl, v1_0_0Hasher.hash_query
        ⟨srch, some (.rangeOpts "number_range" fields lt gt ltIncl gtIncl), extra⟩ =
      v1_0_0Hasher.hash_query
        ⟨srch, some (.rangeOpts "number_range" fields' lt gt ltIncl gtIncl), extra⟩) ∧
    (∀ gf, v1_0_0Hasher.hash_query
        ⟨srch, some (.existsOpts "exists" fields gf), extra⟩ =
      v1_0_0Hasher.hash_query
        ⟨srch, some (.existsOpts "exists" fields' gf), extra⟩) := by
  have hj : v1_0_0Hasher.joinedFields fields = v1_0_0Hasher.joinedFields fields' := by
    unfold v1_0_0Hasher.joinedFields
    rw [pySorted_congr hperm]
  refine ⟨?_, ?_, ?_, ?_, ?_⟩
  · intro v
    simp [v1_0_0Hasher.hash_query, v1_0_0Hasher.create_group_or_term,
      v1_0_0Hasher.create_string_equals, hj]
  · intro v
    simp [v1_0_0Hasher.hash_query, v1_0_0Hasher.create_group_or_term,
      v1_0_0Hasher.create_string_contains, hj]
  · intro v
    simp [v1_0_0Hasher.hash_query, v1_0_0Hasher.create_group_or_term,
      v1_0_0Hasher.create_number_equals, hj]
  · intro lt gt ltIncl gtIncl
    simp [v1_0_0Hasher.hash_query, v1_0_0Hasher.create_group_or_term,
      v1_0_0Hasher.create_number_range, hj]
  · intro gf
    simp [v1_0_0Hasher.hash_query, v1_0_0Hasher.create_group_or_term,
      v1_0_0Hasher.create_exists, hj]

set_option maxRecDepth 8192 in
/-- C9 witness: `hash({"filters":{"string_equals":{"fields":["b","a"],
"value":"x"}}})` equals the hash of the same document with fields
`["a","b"]`. -/
theorem c9_hash_fields_order_independent_witness :
    v1_0_0Hasher.hash_query
        ⟨none, some (.fv "string_equals" ["b", "a"] (.s "x")), []⟩ =
      v1_0_0Hasher.hash_query
        ⟨none, some (.fv "string_equals" ["a", "b"] (.s "x")), []⟩ :=
  (c9_hash_fields_order_independent none [] ["b", "a"] ["a", "b"]
    (List.Perm.swap "a" "b" [])).1 (.s "x")

/-! ### Claim C10: the hasher reads only search and filters -/

set_option maxRecDepth 8192 in
/-- C10: the digest depends only on the `search` and `filters` keys — any
other top-level content is ignored — and a document with neither key hashes to
the SHA-1 digest of the empty input. -/
theorem c10_hash_reads_only_search_and_filters :
    (∀ (srch : Option String) (f : Option GroupOrTerm)
        (e1 e2 : List (String × Prim)),
      v1_0_0Hasher.hash_query ⟨srch, f, e1⟩ =
        v1_0_0Hasher.hash_query ⟨srch, f, e2⟩) ∧
    (∀ e : List (String × Prim),
      v1_0_0Hasher.hash_query ⟨none, none, e⟩ =
        .ok "da39a3ee5e6b4b0d3255bfef95601890afd80709") :=
  ⟨fun _ _ _ _ => rfl,
   fun _ => by
     show Except.ok (sha1Hex (asciiBytes "")) =
       Except.ok "da39a3ee5e6b4b0d3255bfef95601890afd80709"
     exact congrArg Except.ok (by decide)⟩
